import Mathlib

/-!
# hermit: xDS control-plane bootstrap (`xds-server/main.go`)

A shallow embedding of the three functions of `xds-server/main.go`
(`main`, `BuildSnapshot`, `makeListener`) together with the snapshot store and
the discovery response of the specification, and the properties proved about
them.

Conventions of the embedding.

* A Go call returning `(value, error)` is a `GoResult`; the source discards
  most of the errors with `_`, which is why the value is kept beside the error.
* `panic(err)` is `Except.error err`; a function that returns is `Except.ok`.
* The calls `main` makes to its collaborators are recorded, in program order,
  as a list of `Call`s.
* The collaborators themselves (`anypb.New`, `cache.NewSnapshot`, `net.Listen`,
  `os.Hostname`, the constants `ListenerPort` and
  `wellknown.HTTPConnectionManager`) are not part of the repository; their
  outcomes are parameters of the embedding.
-/

namespace Hermit

/-! ## Go values -/

deriving instance DecidableEq for Except

/-- A Go `error` value, carried as its message. -/
structure GoError where
  msg : String
deriving DecidableEq, Repr

/-- The pair `(value, error)` returned by a fallible Go call. -/
structure GoResult (α : Type) where
  val : α
  err : Option GoError
deriving DecidableEq, Repr

/-! ## Resource model -/

/-- The message `anypb.Any`: a type URL and the serialised bytes. -/
structure AnyPb where
  TypeUrl : String
  Value : List Nat
deriving DecidableEq, Repr

/-- The enum `core.SocketAddress_Protocol`. -/
inductive SocketAddress_Protocol where
  | TCP
  | UDP
deriving DecidableEq, Repr

/-- The oneof `core.SocketAddress.PortSpecifier`. -/
inductive PortSpecifier where
  | PortValue (PortValue : Nat)
  | NamedPort (NamedPort : String)
deriving DecidableEq, Repr

/-- The message `core.SocketAddress`. -/
structure SocketAddress where
  Protocol : SocketAddress_Protocol
  Address : String
  PortSpecifier : PortSpecifier
deriving DecidableEq, Repr

/-- The oneof `core.Address.Address`. -/
inductive Address where
  | SocketAddress (SocketAddress : SocketAddress)
  | Pipe (path : String)
deriving DecidableEq, Repr

/-- The oneof `listener.Filter.ConfigType`; the pointer `TypedConfig` may be nil. -/
inductive ConfigType where
  | TypedConfig (TypedConfig : Option AnyPb)
deriving DecidableEq, Repr

/-- The message `listener.Filter`. -/
structure Filter where
  Name : String
  ConfigType : ConfigType
deriving DecidableEq, Repr

/-- The message `listener.FilterChain`. -/
structure FilterChain where
  Filters : List Filter
deriving DecidableEq, Repr

/-- The message `listener.Listener`, with the fields `makeListener` sets. -/
structure Listener where
  Name : String
  Address : Address
  FilterChains : List FilterChain
deriving DecidableEq, Repr

/-- The resource types of the resource model (`resource.Type`). -/
inductive ResourceType where
  | ListenerType
  | ClusterType
  | RouteType
  | EndpointType
  | SecretType
deriving DecidableEq, Repr

/-- A `types.Resource`: the listener message built by this program, or any
other configuration message, known to the core by its name and its bytes. -/
inductive Resource where
  | listener (l : Listener)
  | message (name : String) (payload : List Nat)
deriving DecidableEq, Repr

/-- The name under which a resource is addressed. -/
def Resource.name : Resource → String
  | .listener l => l.Name
  | .message n _ => n

/-- A snapshot: a version and, per resource type, an ordered sequence of
resources. -/
structure Snapshot where
  version : String
  resourcesByType : List (ResourceType × List Resource)
deriving DecidableEq, Repr

/-- The resources of one type in a snapshot; a type without an entry has none. -/
def Snapshot.resources (s : Snapshot) (t : ResourceType) : List Resource :=
  (s.resourcesByType.lookup t).getD []

/-- The names of the resources of one type in a snapshot. -/
def Snapshot.names (s : Snapshot) (t : ResourceType) : List String :=
  (s.resources t).map Resource.name

/-- The snapshot invariant: within a snapshot the resource names of each type
are pairwise distinct. -/
def Snapshot.namesUnique (s : Snapshot) : Prop :=
  ∀ t : ResourceType, (s.names t).Nodup

/-- A populated snapshot: a non-empty version and at least one resource. -/
def Snapshot.populated (s : Snapshot) : Bool :=
  s.version != "" && s.resourcesByType.any (fun p => !p.2.isEmpty)

/-- The Go zero value `cache.Snapshot{}`: empty version, no resources. -/
def Snapshot.zero : Snapshot :=
  { version := "", resourcesByType := [] }

/-- Modelled from the spec: the constructor `cache.NewSnapshot` of the external
cache library is missing from the sources; following the data model
(`Snapshot = {version, resourcesByType}`) it stores the version and the
per-type resources it is given and reports no error. -/
def cache.NewSnapshot (version : String)
    (resources : List (ResourceType × List Resource)) : GoResult (Option Snapshot) :=
  { val := some { version := version, resourcesByType := resources }, err := none }

/-! ## `makeListener` and `BuildSnapshot` -/

/-- What `makeListener` takes from outside the file: the outcomes of the two
`anypb.New` calls and the two constants it names. -/
structure Deps where
  /-- Outcome of `anypb.New(&router.Router{})`. -/
  packRouter : GoResult (Option AnyPb)
  /-- Outcome of `anypb.New(manager)`. -/
  packManager : GoResult (Option AnyPb)
  /-- The constant `ListenerPort`. -/
  ListenerPort : Nat
  /-- The constant `wellknown.HTTPConnectionManager`. -/
  HTTPConnectionManager : String
deriving DecidableEq, Repr

/-- The function `makeListener` (main.go:48-77). `Except.error err` is
`panic(err)`. -/
def makeListener (d : Deps) : Except GoError Listener :=
  -- routerConfig, _ := anypb.New(&router.Router{})
  let _routerConfig := d.packRouter.val
  -- pbst, err := anypb.New(manager)
  let pbst := d.packManager.val
  let err := d.packManager.err
  match err with
  | some e => .error e
  | none =>
    .ok {
      Name := "main"
      Address := .SocketAddress {
        Protocol := .TCP
        Address := "0.0.0.0"
        PortSpecifier := .PortValue d.ListenerPort }
      FilterChains := [{
        Filters := [{
          Name := d.HTTPConnectionManager
          ConfigType := .TypedConfig pbst }] }] }

/-- The function `BuildSnapshot` (main.go:38-46), over the constructor
`NewSnapshot` it calls. The argument `makeListener()` is evaluated before the
call, so its panic is the panic of `BuildSnapshot`; the error returned by the
constructor is discarded and the snapshot pointer returned as it is. -/
def BuildSnapshot
    (NewSnapshot : String → List (ResourceType × List Resource) → GoResult (Option Snapshot))
    (d : Deps) : Except GoError (Option Snapshot) :=
  match makeListener d with
  | .error e => .error e
  | .ok l =>
    let r := NewSnapshot "1"
      [(ResourceType.ClusterType, []), (ResourceType.ListenerType, [Resource.listener l])]
    .ok r.val

/-! ## Snapshot store -/

/-- The failures of the snapshot store. -/
inductive StoreError where
  | VersionConflict
  | NotFound
deriving DecidableEq, Repr

/-- Modelled from the spec: the snapshot store behind `cache.SnapshotCache` is
missing from the sources; it holds at most one current snapshot per node
group. -/
abbrev Store := String → Option Snapshot

/-- Modelled from the spec: `cache.NewSnapshotCache` is missing from the
sources; a new store has no snapshot for any node group. -/
def NewSnapshotCache : Store := fun _ => none

/-- Modelled from the spec: `getSnapshot` is missing from the sources; it
returns the current snapshot of the node group, `NotFound` if none was ever
set. -/
def getSnapshot (st : Store) (nodeGroup : String) : Except StoreError Snapshot :=
  match st nodeGroup with
  | some s => .ok s
  | none => .error .NotFound

/-- Modelled from the spec: `setSnapshot` (`SetSnapshot` of the cache) is
missing from the sources; it replaces the current snapshot of the node group
as a whole, and fails with `VersionConflict`, leaving the store as it was, if
the version published equals the version currently stored. -/
def setSnapshot (st : Store) (nodeGroup : String) (snapshot : Snapshot) :
    Store × Option StoreError :=
  match st nodeGroup with
  | some cur =>
    if snapshot.version = cur.version then (st, some .VersionConflict)
    else (fun g => if g = nodeGroup then some snapshot else st g, none)
  | none => (fun g => if g = nodeGroup then some snapshot else st g, none)

/-- A producer publishing a sequence of snapshots for one node group, one
`setSnapshot` call after the other. -/
def publishAll (st : Store) (nodeGroup : String) : List Snapshot → Store
  | [] => st
  | s :: rest => publishAll (setSnapshot st nodeGroup s).1 nodeGroup rest

/-- The version currently stored for a node group, if any, as a list. -/
def storedVersion (st : Store) (nodeGroup : String) : List String :=
  match st nodeGroup with
  | some s => [s.version]
  | none => []

/-! ## Discovery response -/

/-- The per-connection subscription state the discovery service reads. -/
structure Subscription where
  nodeGroup : String
  resourceType : ResourceType
  subscribedNames : List String
  ackedVersion : Option String
  nonce : String
deriving DecidableEq, Repr

/-- A discovery response. -/
structure Response where
  version : String
  resourceType : ResourceType
  resources : List Resource
  nonce : String
deriving DecidableEq, Repr

/-- Modelled from the spec: the filter of a response; an empty set of
subscribed names selects every resource. -/
def filterByNames (subscribedNames : List String) (rs : List Resource) : List Resource :=
  if subscribedNames.isEmpty then rs
  else rs.filter (fun r => decide (r.name ∈ subscribedNames))

/-- Modelled from the spec: the response algorithm of the discovery service
(`xds.NewServer`) is missing from the sources. With the store's current
version equal to the acked one, or no snapshot for the group, there is no
response; otherwise the response carries the current version, the filtered
resources of the requested type and the fresh nonce. -/
def buildResponse (st : Store) (sub : Subscription) (freshNonce : String) : Option Response :=
  match getSnapshot st sub.nodeGroup with
  | .error _ => none
  | .ok snap =>
    if some snap.version = sub.ackedVersion then none
    else some {
      version := snap.version
      resourceType := sub.resourceType
      resources := filterByNames sub.subscribedNames (snap.resources sub.resourceType)
      nonce := freshNonce }

/-! ## `main` -/

/-- Outcome of `os.Hostname()`, a function of the Go standard library: the
host name the kernel reports, or an error. -/
inductive HostnameOutcome where
  | ok (name : String)
  | failed (err : GoError)
deriving DecidableEq, Repr

/-- The pair `os.Hostname()` returns: on each of its failing paths the
standard library returns the empty string beside the error. -/
def HostnameOutcome.result : HostnameOutcome → GoResult String
  | .ok name => { val := name, err := none }
  | .failed e => { val := "", err := some e }

/-- A `net.Listener` obtained from `net.Listen`. -/
structure NetListener where
  network : String
  address : String
deriving DecidableEq, Repr

/-- Outcome of `net.Listen(network, address)`: the bound listener, or an
error beside a nil listener. -/
inductive ListenOutcome where
  | ok
  | failed (err : GoError)
deriving DecidableEq, Repr

/-- The pair `net.Listen(network, address)` returns. -/
def ListenOutcome.result (network address : String) :
    ListenOutcome → GoResult (Option NetListener)
  | .ok => { val := some { network := network, address := address }, err := none }
  | .failed e => { val := none, err := some e }

/-- The environment `main` runs in. -/
structure Env where
  listen : ListenOutcome
  hostname : HostnameOutcome
deriving DecidableEq, Repr

/-- The calls a program of this kind makes to its collaborators. `Serve` is
`grpcServer.Serve(lis)`. -/
inductive Call where
  | NewSnapshotCache (ads : Bool)
  | NewServer
  | GrpcNewServer
  | NetListen (network address : String)
  | RegisterListenerDiscoveryServiceServer
  | OsHostname
  | SetSnapshot (node : String) (snapshot : Snapshot)
  | Serve (lis : Option NetListener)
deriving DecidableEq, Repr

/-- The state of the program when `main` returns: the global `snapshotCache`,
the locals `lis`, `hostname` and `snapshot` (the value `SetSnapshot` returned),
and the calls made, in program order. -/
structure Run where
  snapshotCache : Store
  lis : Option NetListener
  hostname : String
  snapshot : Option StoreError
  calls : List Call

/-- The function `main` (main.go:25-36). -/
def main (env : Env) : Run :=
  -- snapshotCache = cache.NewSnapshotCache(false, cache.IDHash{}, nil)
  let snapshotCache := NewSnapshotCache
  -- server := xds.NewServer(...); grpcServer := grpc.NewServer()
  -- lis, _ := net.Listen("tcp", ":8080")
  let lis := (env.listen.result "tcp" ":8080").val
  -- listenerservice.RegisterListenerDiscoveryServiceServer(grpcServer, server)
  -- hostname, _ := os.Hostname()
  let hostname := env.hostname.result.val
  -- snapshot := snapshotCache.SetSnapshot(context.Background(), hostname, &cache.Snapshot{})
  let r := setSnapshot snapshotCache hostname Snapshot.zero
  { snapshotCache := r.1
    lis := lis
    hostname := hostname
    snapshot := r.2
    calls := [
      .NewSnapshotCache false,
      .NewServer,
      .GrpcNewServer,
      .NetListen "tcp" ":8080",
      .RegisterListenerDiscoveryServiceServer,
      .OsHostname,
      .SetSnapshot hostname Snapshot.zero ] }

/-- The snapshots `main` passes to `SetSnapshot`, with the node-group key of
each call. -/
def publishedBy (calls : List Call) : List (String × Snapshot) :=
  calls.filterMap fun c =>
    match c with
    | .SetSnapshot node s => some (node, s)
    | _ => none

/-- Whether a call is `net.Listen`. -/
def Call.isListen : Call → Bool
  | .NetListen _ _ => true
  | _ => false

/-- Whether a call is `grpcServer.Serve`. -/
def Call.isServe : Call → Bool
  | .Serve _ => true
  | _ => false

/-- Example snapshot of a given version, holding one listener resource and one
cluster resource. -/
def Snapshot.sample (version : String) : Snapshot :=
  { version := version
    resourcesByType := [
      (ResourceType.ListenerType, [Resource.message "main" [1], Resource.message "admin" [2]]),
      (ResourceType.ClusterType, [Resource.message "backend" [3]])] }

/-- Example dependencies: both `anypb.New` calls succeed. -/
def Deps.sample : Deps :=
  { packRouter := { val := some { TypeUrl := "type.googleapis.com/router", Value := [] }, err := none }
    packManager := { val := some { TypeUrl := "type.googleapis.com/hcm", Value := [10, 4] }, err := none }
    ListenerPort := 10000
    HTTPConnectionManager := "envoy.filters.network.http_connection_manager" }

/-- The listener `makeListener` returns on `Deps.sample`. -/
def Listener.sample : Listener :=
  { Name := "main"
    Address := .SocketAddress {
      Protocol := .TCP, Address := "0.0.0.0", PortSpecifier := .PortValue 10000 }
    FilterChains := [{ Filters := [{
      Name := "envoy.filters.network.http_connection_manager"
      ConfigType := .TypedConfig
        (some { TypeUrl := "type.googleapis.com/hcm", Value := [10, 4] }) }] }] }

/-- The snapshot `BuildSnapshot` returns on `Deps.sample`. -/
def Snapshot.built : Snapshot :=
  { version := "1"
    resourcesByType := [(ResourceType.ClusterType, []),
      (ResourceType.ListenerType, [Resource.listener Listener.sample])] }

/-- Example dependencies in which `anypb.New(manager)` returns an error. -/
def Deps.failing : Deps :=
  { Deps.sample with packManager := { val := none, err := some { msg := "proto: marshal" } } }

/-- Example environment: both `net.Listen` and `os.Hostname` fail. -/
def Env.failing : Env :=
  { listen := .failed { msg := "listen tcp :8080: bind: address already in use" }
    hostname := .failed { msg := "hostname: function not implemented" } }

/-- Example store: the snapshot built from `Deps.sample` is current for the
node group `fleet-a`. -/
def Store.sample : Store :=
  (setSnapshot NewSnapshotCache "fleet-a" Snapshot.built).1

/-- Example subscription: a wildcard request for listeners by a client of the
node group `fleet-a` whose acked version is the empty string. -/
def Subscription.sample : Subscription :=
  { nodeGroup := "fleet-a"
    resourceType := .ListenerType
    subscribedNames := []
    ackedVersion := some ""
    nonce := "" }

/-- Example environment: `net.Listen` succeeds, the host is `fleet-a`. -/
def Env.sample : Env :=
  { listen := .ok, hostname := .ok "fleet-a" }

/-! ## Properties of `makeListener` and `BuildSnapshot` -/

theorem makeListener_of_err_none (d : Deps) (h : d.packManager.err = none) :
    makeListener d = .ok {
      Name := "main"
      Address := .SocketAddress {
        Protocol := .TCP
        Address := "0.0.0.0"
        PortSpecifier := .PortValue d.ListenerPort }
      FilterChains := [{
        Filters := [{
          Name := d.HTTPConnectionManager
          ConfigType := .TypedConfig d.packManager.val }] }] } := by
  simp [makeListener, h]

theorem makeListener_of_err_some (d : Deps) (e : GoError) (h : d.packManager.err = some e) :
    makeListener d = .error e := by
  simp [makeListener, h]

theorem makeListener_error_iff (d : Deps) (e : GoError) :
    makeListener d = .error e ↔ d.packManager.err = some e := by
  cases h : d.packManager.err with
  | none => simp [makeListener_of_err_none d h]
  | some e1 => simp [makeListener_of_err_some d e1 h]

theorem makeListener_ok_err_none (d : Deps) (l : Listener) (h : makeListener d = .ok l) :
    d.packManager.err = none := by
  cases h1 : d.packManager.err with
  | none => rfl
  | some e => simp [makeListener_of_err_some d e h1] at h

theorem BuildSnapshot_of_ok
    (N : String → List (ResourceType × List Resource) → GoResult (Option Snapshot))
    (d : Deps) (l : Listener) (h : makeListener d = .ok l) :
    BuildSnapshot N d = .ok (N "1"
      [(ResourceType.ClusterType, []), (ResourceType.ListenerType, [Resource.listener l])]).val := by
  simp [BuildSnapshot, h]

theorem BuildSnapshot_error_iff
    (N : String → List (ResourceType × List Resource) → GoResult (Option Snapshot))
    (d : Deps) (e : GoError) :
    BuildSnapshot N d = .error e ↔ makeListener d = .error e := by
  unfold BuildSnapshot
  cases makeListener d with
  | error e1 => simp
  | ok l => simp

/-- The snapshot `BuildSnapshot` returns, when it returns one from the
constructor of the data model. -/
theorem BuildSnapshot_newSnapshot_ok (d : Deps) (s : Snapshot)
    (h : BuildSnapshot cache.NewSnapshot d = .ok (some s)) :
    ∃ l, makeListener d = .ok l ∧ l.Name = "main" ∧
      s = { version := "1",
            resourcesByType := [(ResourceType.ClusterType, []),
              (ResourceType.ListenerType, [Resource.listener l])] } := by
  cases hl : makeListener d with
  | error e => simp [BuildSnapshot, hl] at h
  | ok l =>
    have hn : d.packManager.err = none := makeListener_ok_err_none d l hl
    have hname : l.Name = "main" := by
      have h2 := makeListener_of_err_none d hn
      rw [hl] at h2
      injection h2 with h3
      rw [h3]
    refine ⟨l, rfl, hname, ?_⟩
    rw [BuildSnapshot_of_ok cache.NewSnapshot d l hl] at h
    simp [cache.NewSnapshot] at h
    exact h.symm

/-- C8: whenever `makeListener` returns, the listener has name `"main"`, the
socket address TCP `0.0.0.0` with port value `ListenerPort`, and exactly one
filter chain with exactly one filter, named `wellknown.HTTPConnectionManager`,
whose typed config is the packed connection manager `pbst`. -/
theorem makeListener_returns (d : Deps) (l : Listener) (h : makeListener d = .ok l) :
    l.Name = "main" ∧
    l.Address = .SocketAddress {
      Protocol := .TCP, Address := "0.0.0.0", PortSpecifier := .PortValue d.ListenerPort } ∧
    l.FilterChains = [{ Filters := [{
      Name := d.HTTPConnectionManager
      ConfigType := .TypedConfig d.packManager.val }] }] := by
  have h2 := makeListener_of_err_none d (makeListener_ok_err_none d l h)
  rw [h] at h2
  injection h2 with h3
  subst h3
  exact ⟨rfl, rfl, rfl⟩

theorem makeListener_returns_witness :
    makeListener Deps.sample = .ok Listener.sample ∧
    (Listener.sample.Name = "main" ∧
      Listener.sample.Address = .SocketAddress {
        Protocol := .TCP, Address := "0.0.0.0",
        PortSpecifier := .PortValue Deps.sample.ListenerPort } ∧
      Listener.sample.FilterChains = [{ Filters := [{
        Name := Deps.sample.HTTPConnectionManager
        ConfigType := .TypedConfig Deps.sample.packManager.val }] }]) :=
  ⟨rfl, makeListener_returns Deps.sample Listener.sample rfl⟩

/-- C9: `makeListener` panics exactly when `anypb.New(manager)` returns an
error, and with that error; the outcome of packing the router config has no
influence on it; `BuildSnapshot` panics only through `makeListener`, whatever
error `cache.NewSnapshot` reports, and otherwise returns the snapshot value the
constructor produced. -/
theorem makeListener_panics_iff
    (N : String → List (ResourceType × List Resource) → GoResult (Option Snapshot))
    (d : Deps) :
    (∀ e, makeListener d = .error e ↔ d.packManager.err = some e) ∧
    (∀ r, makeListener { d with packRouter := r } = makeListener d) ∧
    (∀ e, BuildSnapshot N d = .error e ↔ d.packManager.err = some e) ∧
    (∀ l, makeListener d = .ok l →
      BuildSnapshot N d = .ok (N "1"
        [(ResourceType.ClusterType, []), (ResourceType.ListenerType, [Resource.listener l])]).val) := by
  refine ⟨makeListener_error_iff d, fun r => rfl, fun e => ?_, fun l h => BuildSnapshot_of_ok N d l h⟩
  rw [BuildSnapshot_error_iff, makeListener_error_iff]

theorem makeListener_panics_iff_witness :
    makeListener Deps.sample = .ok Listener.sample ∧
    BuildSnapshot (fun _ _ => { val := none, err := some { msg := "unknown resource type" } })
      Deps.sample = .ok none :=
  ⟨rfl, (makeListener_panics_iff
    (fun _ _ => { val := none, err := some { msg := "unknown resource type" } })
    Deps.sample).2.2.2 Listener.sample rfl⟩

/-- C1 (as stated, refuted): with `anypb.New(manager)` returning an error,
`BuildSnapshot` panics with that error and returns no snapshot at all. -/
theorem BuildSnapshot_panics_example :
    BuildSnapshot cache.NewSnapshot Deps.failing = .error { msg := "proto: marshal" } ∧
    ¬ ∃ s : Snapshot, BuildSnapshot cache.NewSnapshot Deps.failing = .ok (some s) ∧
      s.version = "1" ∧
      (∃ r, s.resources .ListenerType = [r] ∧ r.name = "main") ∧
      s.resources .ClusterType = [] := by
  refine ⟨rfl, ?_⟩
  rintro ⟨s, hs, -⟩
  have h : BuildSnapshot cache.NewSnapshot Deps.failing = .error { msg := "proto: marshal" } := rfl
  rw [h] at hs
  cases hs

/-- C1 (amended): whenever `anypb.New(manager)` returns no error, so that
`makeListener` returns, `BuildSnapshot` returns a snapshot with version `"1"`,
whose listener resources are exactly the one listener `makeListener` returned,
named `"main"`, and whose cluster resources are the empty sequence. -/
theorem BuildSnapshot_returns (d : Deps) (h : d.packManager.err = none) :
    ∃ s : Snapshot, BuildSnapshot cache.NewSnapshot d = .ok (some s) ∧
      s.version = "1" ∧
      (∃ l, makeListener d = .ok l ∧ s.resources .ListenerType = [Resource.listener l] ∧
        (s.resources .ListenerType).map Resource.name = ["main"]) ∧
      s.resources .ClusterType = [] := by
  have hl := makeListener_of_err_none d h
  refine ⟨{ version := "1", resourcesByType := [(ResourceType.ClusterType, []),
    (ResourceType.ListenerType, [Resource.listener {
      Name := "main"
      Address := .SocketAddress {
        Protocol := .TCP
        Address := "0.0.0.0"
        PortSpecifier := .PortValue d.ListenerPort }
      FilterChains := [{
        Filters := [{
          Name := d.HTTPConnectionManager
          ConfigType := .TypedConfig d.packManager.val }] }] }])] },
    ?_, rfl, ⟨_, hl, rfl, rfl⟩, rfl⟩
  rw [BuildSnapshot_of_ok cache.NewSnapshot d _ hl]
  rfl

theorem BuildSnapshot_returns_witness :
    Deps.sample.packManager.err = none ∧
    ∃ s : Snapshot, BuildSnapshot cache.NewSnapshot Deps.sample = .ok (some s) ∧
      s.version = "1" ∧
      (∃ l, makeListener Deps.sample = .ok l ∧ s.resources .ListenerType = [Resource.listener l] ∧
        (s.resources .ListenerType).map Resource.name = ["main"]) ∧
      s.resources .ClusterType = [] :=
  ⟨rfl, BuildSnapshot_returns Deps.sample rfl⟩

/-- C5: in the snapshot returned by `BuildSnapshot` the resource names of each
type are pairwise distinct, and so they are in the zero-value snapshot `main`
constructs. -/
theorem BuildSnapshot_namesUnique (d : Deps) (s : Snapshot)
    (h : BuildSnapshot cache.NewSnapshot d = .ok (some s)) :
    s.namesUnique ∧ Snapshot.zero.namesUnique := by
  obtain ⟨l, -, -, rfl⟩ := BuildSnapshot_newSnapshot_ok d s h
  constructor
  · intro t
    cases t <;> first
      | exact List.nodup_nil
      | exact List.nodup_singleton _
  · intro t
    exact List.nodup_nil

theorem BuildSnapshot_namesUnique_witness :
    BuildSnapshot cache.NewSnapshot Deps.sample = .ok (some Snapshot.built) ∧
    (Snapshot.built.namesUnique ∧ Snapshot.zero.namesUnique) :=
  ⟨rfl, BuildSnapshot_namesUnique Deps.sample Snapshot.built rfl⟩

/-! ## Properties of the snapshot store -/

theorem setSnapshot_of_none (st : Store) (g : String) (s : Snapshot) (h : st g = none) :
    (setSnapshot st g s).2 = none ∧ (setSnapshot st g s).1 g = some s := by
  simp [setSnapshot, h]

theorem setSnapshot_of_ne (st : Store) (g : String) (s cur : Snapshot) (h : st g = some cur)
    (hv : s.version ≠ cur.version) :
    (setSnapshot st g s).2 = none ∧ (setSnapshot st g s).1 g = some s := by
  simp [setSnapshot, h, hv]

theorem setSnapshot_of_eq (st : Store) (g : String) (s cur : Snapshot) (h : st g = some cur)
    (hv : s.version = cur.version) :
    setSnapshot st g s = (st, some StoreError.VersionConflict) := by
  simp [setSnapshot, h, hv]

theorem setSnapshot_conflict_iff (st : Store) (g : String) (s : Snapshot) :
    (setSnapshot st g s).2 = some StoreError.VersionConflict ↔
      ∃ cur, st g = some cur ∧ s.version = cur.version := by
  cases h : st g with
  | none => simp [(setSnapshot_of_none st g s h).1]
  | some cur =>
    by_cases hv : s.version = cur.version
    · simp [setSnapshot_of_eq st g s cur h hv, hv]
    · simp [(setSnapshot_of_ne st g s cur h hv).1, hv]

theorem setSnapshot_failure (st : Store) (g : String) (s : Snapshot)
    (h : (setSnapshot st g s).2 ≠ none) :
    setSnapshot st g s = (st, some StoreError.VersionConflict) := by
  cases hg : st g with
  | none => exact absurd (setSnapshot_of_none st g s hg).1 h
  | some cur =>
    by_cases hv : s.version = cur.version
    · exact setSnapshot_of_eq st g s cur hg hv
    · exact absurd (setSnapshot_of_ne st g s cur hg hv).1 h

theorem setSnapshot_stored_version (st : Store) (g : String) (s : Snapshot) :
    ∃ cur, (setSnapshot st g s).1 g = some cur ∧ cur.version = s.version := by
  cases hg : st g with
  | none => exact ⟨s, (setSnapshot_of_none st g s hg).2, rfl⟩
  | some cur =>
    by_cases hv : s.version = cur.version
    · rw [setSnapshot_of_eq st g s cur hg hv]
      exact ⟨cur, hg, hv.symm⟩
    · exact ⟨s, (setSnapshot_of_ne st g s cur hg hv).2, rfl⟩

theorem setSnapshot_fresh (st : Store) (g : String) (s : Snapshot) (vs : List String)
    (h : List.Pairwise (fun a b : String => a < b) (storedVersion st g ++ s.version :: vs)) :
    (setSnapshot st g s).2 = none ∧ (setSnapshot st g s).1 g = some s ∧
      List.Pairwise (fun a b : String => a < b) (storedVersion (setSnapshot st g s).1 g ++ vs) := by
  have htail : List.Pairwise (fun a b : String => a < b) (s.version :: vs) :=
    (List.pairwise_append.mp h).2.1
  have key : (setSnapshot st g s).2 = none ∧ (setSnapshot st g s).1 g = some s := by
    cases hg : st g with
    | none => exact setSnapshot_of_none st g s hg
    | some cur =>
      have hlt : cur.version < s.version := by
        have h3 := (List.pairwise_append.mp h).2.2 cur.version
          (by simp [storedVersion, hg]) s.version (by simp)
        exact h3
      exact setSnapshot_of_ne st g s cur hg (fun he => lt_irrefl cur.version (he ▸ hlt))
  refine ⟨key.1, key.2, ?_⟩
  simpa [storedVersion, key.2] using htail

theorem publishAll_each (g : String) (pre : List Snapshot) :
    ∀ (st : Store) (s : Snapshot) (post : List Snapshot),
      List.Pairwise (fun a b : String => a < b)
        (storedVersion st g ++ (pre ++ s :: post).map Snapshot.version) →
      (setSnapshot (publishAll st g pre) g s).2 = none ∧
        getSnapshot (publishAll st g (pre ++ [s])) g = .ok s := by
  induction pre with
  | nil =>
    intro st s post h
    have h1 := setSnapshot_fresh st g s (post.map Snapshot.version) (by simpa using h)
    refine ⟨h1.1, ?_⟩
    simp [publishAll, getSnapshot, h1.2.1]
  | cons p pre ih =>
    intro st s post h
    have h1 := setSnapshot_fresh st g p ((pre ++ s :: post).map Snapshot.version)
      (by simpa using h)
    exact ih (setSnapshot st g p).1 s post h1.2.2

/-- C4: `setSnapshot` fails with `VersionConflict` exactly when the version
published equals the version currently stored for the node group; it has no
other failure, and on failure the store is unchanged; so the snapshot of
`BuildSnapshot`, always of version `"1"`, published a second time for the same
node group, is rejected and leaves the store as it was. -/
theorem setSnapshot_versionConflict (st : Store) (g : String) (s : Snapshot) :
    ((setSnapshot st g s).2 = some StoreError.VersionConflict ↔
      ∃ cur, st g = some cur ∧ s.version = cur.version) ∧
    ((setSnapshot st g s).2 ≠ none →
      (setSnapshot st g s).2 = some StoreError.VersionConflict ∧ (setSnapshot st g s).1 = st) ∧
    (∀ (d1 d2 : Deps) (b1 b2 : Snapshot),
      BuildSnapshot cache.NewSnapshot d1 = .ok (some b1) →
      BuildSnapshot cache.NewSnapshot d2 = .ok (some b2) →
      (setSnapshot (setSnapshot st g b1).1 g b2).2 = some StoreError.VersionConflict ∧
      (setSnapshot (setSnapshot st g b1).1 g b2).1 = (setSnapshot st g b1).1) := by
  refine ⟨setSnapshot_conflict_iff st g s, fun h => ?_, fun d1 d2 b1 b2 h1 h2 => ?_⟩
  · rw [setSnapshot_failure st g s h]
    exact ⟨rfl, rfl⟩
  · obtain ⟨l1, -, -, e1⟩ := BuildSnapshot_newSnapshot_ok d1 b1 h1
    obtain ⟨l2, -, -, e2⟩ := BuildSnapshot_newSnapshot_ok d2 b2 h2
    obtain ⟨cur, hc, hv⟩ := setSnapshot_stored_version st g b1
    have hv2 : b2.version = cur.version := by
      rw [hv, e1, e2]
    rw [setSnapshot_of_eq _ g b2 cur hc hv2]
    exact ⟨rfl, rfl⟩

theorem setSnapshot_versionConflict_witness :
    (setSnapshot (setSnapshot NewSnapshotCache "fleet-a" Snapshot.zero).1 "fleet-a"
        Snapshot.zero).2 ≠ none ∧
    ((setSnapshot (setSnapshot NewSnapshotCache "fleet-a" Snapshot.zero).1 "fleet-a"
        Snapshot.zero).2 = some StoreError.VersionConflict ∧
      (setSnapshot (setSnapshot NewSnapshotCache "fleet-a" Snapshot.zero).1 "fleet-a"
        Snapshot.zero).1 = (setSnapshot NewSnapshotCache "fleet-a" Snapshot.zero).1) :=
  ⟨by decide,
    (setSnapshot_versionConflict (setSnapshot NewSnapshotCache "fleet-a" Snapshot.zero).1
      "fleet-a" Snapshot.zero).2.1 (by decide)⟩

/-- C3: for every node group and every sequence of `setSnapshot` calls on it
whose versions are strictly increasing (from the version stored before the
first call, if there is one), every call succeeds and `getSnapshot` after it
returns exactly the snapshot of that call; and after the single `SetSnapshot`
call of `main` the store holds, under the host-name key, the snapshot `main`
passed. -/
theorem getSnapshot_after_setSnapshot (st : Store) (g : String) (snaps : List Snapshot)
    (hinc : List.Pairwise (fun a b : String => a < b)
      (storedVersion st g ++ snaps.map Snapshot.version)) :
    (∀ (pre : List Snapshot) (s : Snapshot) (post : List Snapshot),
      snaps = pre ++ s :: post →
      (setSnapshot (publishAll st g pre) g s).2 = none ∧
        getSnapshot (publishAll st g (pre ++ [s])) g = .ok s) ∧
    (∀ env : Env,
      publishedBy (main env).calls = [((main env).hostname, Snapshot.zero)] ∧
      (main env).snapshot = none ∧
      getSnapshot (main env).snapshotCache (main env).hostname = .ok Snapshot.zero) := by
  constructor
  · intro pre s post hs
    subst hs
    exact publishAll_each g pre st s post hinc
  · intro env
    have h := setSnapshot_of_none NewSnapshotCache env.hostname.result.val Snapshot.zero rfl
    refine ⟨rfl, h.1, ?_⟩
    show getSnapshot (setSnapshot NewSnapshotCache env.hostname.result.val Snapshot.zero).1
      env.hostname.result.val = .ok Snapshot.zero
    simp [getSnapshot, h.2]

theorem getSnapshot_after_setSnapshot_witness :
    List.Pairwise (fun a b : String => a < b)
      (storedVersion NewSnapshotCache "fleet-a" ++
        [Snapshot.sample "1", Snapshot.sample "2"].map Snapshot.version) ∧
    ((setSnapshot (publishAll NewSnapshotCache "fleet-a" [Snapshot.sample "1"]) "fleet-a"
        (Snapshot.sample "2")).2 = none ∧
      getSnapshot (publishAll NewSnapshotCache "fleet-a"
        ([Snapshot.sample "1"] ++ [Snapshot.sample "2"])) "fleet-a" = .ok (Snapshot.sample "2")) :=
  ⟨by simp [storedVersion, NewSnapshotCache, Snapshot.sample, String.lt_iff_toList_lt]; decide,
    (getSnapshot_after_setSnapshot NewSnapshotCache "fleet-a"
      [Snapshot.sample "1", Snapshot.sample "2"]
      (by simp [storedVersion, NewSnapshotCache, Snapshot.sample, String.lt_iff_toList_lt]; decide)).1
      [Snapshot.sample "1"] (Snapshot.sample "2") [] rfl⟩

/-! ## Properties of the discovery response -/

/-- C7: for a node group whose current snapshot is `snap`, a request for a
resource type with subscribed names `N` and acked version `a` is answered, when
the current version differs from `a`, with the current version and exactly the
snapshot resources of that type whose name is in `N` (all of them when `N` is
empty), and is not answered when the current version equals `a`; with the
snapshot of `BuildSnapshot` current, a wildcard listener request with acked
version `""` is answered with version `"1"` and the single resource `"main"`. -/
theorem buildResponse_spec (st : Store) (sub : Subscription) (freshNonce : String)
    (snap : Snapshot) (hcur : getSnapshot st sub.nodeGroup = .ok snap) :
    (some snap.version ≠ sub.ackedVersion →
      ∃ r, buildResponse st sub freshNonce = some r ∧
        r.version = snap.version ∧ r.resourceType = sub.resourceType ∧ r.nonce = freshNonce ∧
        (sub.subscribedNames = [] → r.resources = snap.resources sub.resourceType) ∧
        (sub.subscribedNames ≠ [] → r.resources =
          (snap.resources sub.resourceType).filter
            (fun x => decide (x.name ∈ sub.subscribedNames)))) ∧
    (some snap.version = sub.ackedVersion → buildResponse st sub freshNonce = none) ∧
    (∀ (d : Deps), BuildSnapshot cache.NewSnapshot d = .ok (some snap) →
      sub.resourceType = ResourceType.ListenerType → sub.subscribedNames = [] →
      sub.ackedVersion = some "" →
      ∃ r, buildResponse st sub freshNonce = some r ∧ r.version = "1" ∧
        r.resources.map Resource.name = ["main"] ∧
        ∃ l, makeListener d = .ok l ∧ r.resources = [Resource.listener l]) := by
  refine ⟨fun hne => ?_, fun heq => ?_, fun d hb ht hn ha => ?_⟩
  · refine ⟨_, by simp [buildResponse, hcur, hne]; rfl, rfl, rfl, rfl, ?_, ?_⟩
    · intro h
      simp [filterByNames, h]
    · intro h
      simp [filterByNames, h]
  · simp [buildResponse, hcur, heq]
  · obtain ⟨l, hl, hname, rfl⟩ := BuildSnapshot_newSnapshot_ok d snap hb
    have hne : ¬ (some "1" = sub.ackedVersion) := by
      rw [ha]
      decide
    refine ⟨_, by simp [buildResponse, hcur, hne]; rfl, rfl, ?_, l, hl, ?_⟩
    · show List.map Resource.name (filterByNames sub.subscribedNames
        (Snapshot.resources _ sub.resourceType)) = ["main"]
      rw [hn, ht]
      show [l.Name] = ["main"]
      rw [hname]
    · show filterByNames sub.subscribedNames (Snapshot.resources _ sub.resourceType) = _
      rw [hn, ht]
      rfl

theorem buildResponse_spec_witness :
    getSnapshot Store.sample Subscription.sample.nodeGroup = .ok Snapshot.built ∧
    ∃ r, buildResponse Store.sample Subscription.sample "n1" = some r ∧ r.version = "1" ∧
      r.resources.map Resource.name = ["main"] ∧
      ∃ l, makeListener Deps.sample = .ok l ∧ r.resources = [Resource.listener l] :=
  ⟨rfl, (buildResponse_spec Store.sample Subscription.sample "n1" Snapshot.built rfl).2.2
    Deps.sample rfl rfl rfl rfl⟩

/-! ## Properties of `main` -/

/-- C2 (the code at any environment): the only snapshot `main` passes to
`SetSnapshot` is the zero value `cache.Snapshot{}`, whose version is empty and
which has no resource of any type, so it is not populated; `BuildSnapshot` is
not what `main` publishes. -/
theorem main_publishes_zero_snapshot (env : Env) :
    publishedBy (main env).calls = [(env.hostname.result.val, Snapshot.zero)] ∧
    Snapshot.zero.populated = false ∧
    Snapshot.zero.version = "" ∧
    (∀ t, Snapshot.zero.resources t = []) ∧
    (∀ d, BuildSnapshot cache.NewSnapshot d ≠ .ok (some Snapshot.zero)) := by
  refine ⟨rfl, rfl, rfl, fun _ => rfl, fun d h => ?_⟩
  obtain ⟨l, -, -, e⟩ := BuildSnapshot_newSnapshot_ok d _ h
  have hv : ("" : String) = "1" := congrArg Snapshot.version e
  exact absurd hv (by decide)

/-- C6 (the code at any environment): `main` calls `net.Listen` exactly once,
with `"tcp"` and `":8080"`, and registers the listener discovery service, but
makes no `Serve` call: its last call is `SetSnapshot`, and the gRPC server is
never started on the listener. -/
theorem main_never_serves (env : Env) :
    (main env).calls.filter Call.isListen = [Call.NetListen "tcp" ":8080"] ∧
    Call.RegisterListenerDiscoveryServiceServer ∈ (main env).calls ∧
    (main env).calls.filter Call.isServe = [] ∧
    (main env).calls.getLast? = some (Call.SetSnapshot env.hostname.result.val Snapshot.zero) := by
  refine ⟨rfl, ?_, rfl, rfl⟩
  simp [main]

/-- C10: whatever the outcomes of `net.Listen` and `os.Hostname`, `main`
reaches its `SetSnapshot` call, which is its last call; the node-group key of
that call is exactly the string `os.Hostname` returned, and it is the empty
string when `os.Hostname` fails. -/
theorem main_reaches_SetSnapshot (env : Env) :
    Call.SetSnapshot env.hostname.result.val Snapshot.zero ∈ (main env).calls ∧
    (main env).calls.getLast? = some (Call.SetSnapshot env.hostname.result.val Snapshot.zero) ∧
    publishedBy (main env).calls = [(env.hostname.result.val, Snapshot.zero)] ∧
    (main env).hostname = env.hostname.result.val ∧
    (∀ e, env.hostname = HostnameOutcome.failed e →
      publishedBy (main env).calls = [("", Snapshot.zero)]) := by
  refine ⟨by simp [main], rfl, rfl, rfl, fun e he => ?_⟩
  show [(env.hostname.result.val, Snapshot.zero)] = [("", Snapshot.zero)]
  rw [he]
  rfl

theorem main_reaches_SetSnapshot_witness :
    Env.failing.hostname = HostnameOutcome.failed { msg := "hostname: function not implemented" } ∧
    publishedBy (main Env.failing).calls = [("", Snapshot.zero)] :=
  ⟨rfl, (main_reaches_SetSnapshot Env.failing).2.2.2.2 _ rfl⟩

end Hermit
